import Mathlib

/-!
Verification of the segment-continuation and assembly pipeline of the `tag`
video-story application.

The repository is a React frontend (`frontend/src/...`) talking to a Flask
backend over `/api`.  The frontend sources are embedded here directly; the
backend (Segment Store, Stitcher, Story Orchestrator, Generation Operation
Tracker) is not part of the available sources, so those operations are
modelled from the design specification and are marked `Modelled from the
spec:` in their doc comments.

Conventions of the shallow embedding:
* video bytes and blob locations are opaque `List Nat` values;
* JavaScript string falsiness (`!s`) is the test `s = ""`; the absence of a
  field (`null`/`undefined`) is `Option.none`;
* the timer machinery of `StoryContext.js` (`setInterval` / `setTimeout` /
  the `activePollsRef` set) is a small transition system over `PollState`,
  driven by an explicit event list.
-/

namespace Tag

/-! ## Data model -/

/-- Segment status as used throughout the frontend
(`pending`, `generating`, `publishing`, `completed`, `failed`). -/
inductive SegStatus where
  | pending
  | generating
  | publishing
  | completed
  | failed
deriving DecidableEq, Repr

/-- A story segment as the frontend sees it: sequence number, status, the
external operation reference, the resulting video bytes and the derived
continuity frame. -/
structure Segment where
  segId : Nat
  sequence_number : Nat
  status : SegStatus
  operation_id : Option Nat
  video : List Nat
  continuity_frame : Option (List Nat)
deriving DecidableEq, Repr

/-- A story: its segments plus the optional final artifact
(`final_video_url`, identified here with the stitched bytes it points at). -/
structure Story where
  segments : List Segment
  finalArtifact : Option (List Nat)
deriving DecidableEq, Repr

/-! ## JavaScript string helpers -/

/-- Whitespace characters recognised by the model of `String.prototype.trim`. -/
def isJsSpace (c : Char) : Bool :=
  c == ' ' || c == '\t' || c == '\n' || c == '\r'

/-- Model of `s.trim()`: drop leading and trailing whitespace. -/
def jsTrim (s : String) : String :=
  String.mk (((s.data.dropWhile isJsSpace).reverse.dropWhile isJsSpace).reverse)

/-- Model of `s.slice(0, n)`. -/
def jsSlice (s : String) (n : Nat) : String :=
  String.mk (s.data.take n)

/-- Model of the JavaScript expression `v || d` for an optional string `v`:
`null`/`undefined` and the empty string are falsy. -/
def jsOrString (v : Option String) (d : String) : String :=
  match v with
  | some s => if s == "" then d else s
  | none => d

theorem jsTrim_of_all_space (s : String) (h : s.data.all isJsSpace = true) :
    jsTrim s = "" := by
  have h' : ∀ c ∈ s.data, isJsSpace c = true := by
    simpa [List.all_eq_true] using h
  have h1 : s.data.dropWhile isJsSpace = [] :=
    List.dropWhile_eq_nil_iff.mpr fun c hc => h' c hc
  simp [jsTrim, h1]

/-! ## Segment ordering (`StoryViewPage.js`, line 313)

The segment list is displayed via
`currentStory.segments.sort((a, b) => a.sequence_number - b.sequence_number)`;
the same ordering is prescribed for the Segment Store's `list` and for the
Stitcher. -/

/-- Comparison used by the segment sort: ascending `sequence_number`. -/
def seqLE (a b : Segment) : Prop :=
  a.sequence_number ≤ b.sequence_number

instance : DecidableRel seqLE := fun a b =>
  inferInstanceAs (Decidable (a.sequence_number ≤ b.sequence_number))

instance : IsTotal Segment seqLE :=
  ⟨fun a b => Nat.le_total a.sequence_number b.sequence_number⟩

instance : IsTrans Segment seqLE :=
  ⟨fun _ _ _ hab hbc => Nat.le_trans hab hbc⟩

/-- Sort segments by ascending sequence number (the comparator
`(a, b) => a.sequence_number - b.sequence_number`). -/
def sortBySeq (l : List Segment) : List Segment :=
  List.insertionSort seqLE l

/-! ## Stitcher and the `canStitch` UI gate -/

/-- `StoryViewPage.js`, line 83: the segments currently in `completed` state. -/
def completedSegments (st : Story) : List Segment :=
  st.segments.filter fun s => s.status == SegStatus.completed

/-- `StoryViewPage.js`, line 84:
`canStitch = completedSegments.length > 0 && !currentStory?.final_video_url`.
The stitch button is rendered only when this holds. -/
def canStitch (st : Story) : Bool :=
  decide (0 < (completedSegments st).length) && st.finalArtifact.isNone

/-- Errors of the Stitcher. -/
inductive StitchError where
  | notReady (sequence_number : Nat)
  | emptyStory
deriving DecidableEq, Repr

/-- Modelled from the spec: the Stitcher (`POST /stories/:id/stitch`) lives in
the Flask backend, which is not among the available sources.  Spec (section
4.4): load all segments ordered by sequence number; if the list is empty or
any segment is `failed` or non-terminal, refuse with `NotReady` naming the
first blocking segment and change nothing; otherwise concatenate the videos
in order and record the result on the story, overwriting any prior final
artifact.  Returns the (possibly updated) story together with the result. -/
def stitch (st : Story) : Story × Except StitchError (List Nat) :=
  let segs := sortBySeq st.segments
  if segs.isEmpty then (st, Except.error StitchError.emptyStory)
  else
    match segs.find? (fun s => !(s.status == SegStatus.completed)) with
    | some b => (st, Except.error (StitchError.notReady b.sequence_number))
    | none =>
      let artifact := (segs.map Segment.video).flatten
      ({ st with finalArtifact := some artifact }, Except.ok artifact)

/-- The first segment, in sequence order, that is not `completed`. -/
def firstBlocking (l : List Segment) : Option Segment :=
  (sortBySeq l).find? fun s => !(s.status == SegStatus.completed)

/-- Helper for concrete test stories. -/
def mkSeg (i seq : Nat) (st : SegStatus) (vid : List Nat) : Segment :=
  ⟨i, seq, st, none, vid, none⟩

/-- The spec's worked example: segments completed#1, completed#2, failed#3. -/
def storyC1 : Story :=
  ⟨[mkSeg 1 1 .completed [1], mkSeg 2 2 .completed [2], mkSeg 3 3 .failed []], none⟩

/-- Claim C1: whenever a story's segment list contains a `failed` or
non-terminal segment, `stitch` refuses with a `NotReady` error naming the
first blocking segment (in sequence order) and leaves the story — in
particular its FinalArtifact — unchanged; it never silently skips the broken
segment. -/
theorem stitch_refuses_notReady (st : Story)
    (h : ∃ s ∈ st.segments, s.status ≠ SegStatus.completed) :
    ∃ b, firstBlocking st.segments = some b ∧
      stitch st = (st, Except.error (StitchError.notReady b.sequence_number)) := by
  obtain ⟨s, hs, hstat⟩ := h
  have hmem : s ∈ sortBySeq st.segments :=
    ((List.perm_insertionSort seqLE st.segments).mem_iff).mpr hs
  have hsome :
      ((sortBySeq st.segments).find? fun t => !(t.status == SegStatus.completed)).isSome :=
    List.find?_isSome.mpr ⟨s, hmem, by simpa using hstat⟩
  obtain ⟨b, hb⟩ := Option.isSome_iff_exists.mp hsome
  have hemp : (sortBySeq st.segments).isEmpty = false :=
    List.isEmpty_eq_false.mpr (List.ne_nil_of_mem hmem)
  exact ⟨b, hb, by simp [stitch, hemp, hb]⟩

/-- Witness for C1 at the spec's example [completed#1, completed#2, failed#3]. -/
theorem stitch_refuses_notReady_witness :
    ∃ b, firstBlocking storyC1.segments = some b ∧
      stitch storyC1 = (storyC1, Except.error (StitchError.notReady b.sequence_number)) :=
  stitch_refuses_notReady storyC1 (by decide)

/-- A one-segment story whose single segment is completed. -/
def storyC3 : Story :=
  ⟨[mkSeg 1 1 .completed [7, 7]], none⟩

/-- Claim C3 counterexample: after a successful stitch the UI gate `canStitch`
is `false` (it requires `!final_video_url`), so re-invoking stitch is blocked,
contradicting the claim that a re-stitch is permitted rather than blocked. -/
theorem canStitch_blocks_restitch_counterexample :
    (stitch storyC3).2 = Except.ok [7, 7] ∧ canStitch (stitch storyC3).1 = false :=
  ⟨rfl, rfl⟩

/-- Claim C3 (amended): the Stitcher itself is idempotent and overwriting — if
`stitch` succeeds with artifact `a`, running it again on the resulting story
reproduces the same artifact `a` and simply overwrites the FinalArtifact with
it (no accumulation) — but the frontend gate `canStitch` blocks re-invocation
once a FinalArtifact exists. -/
theorem stitch_idempotent_overwrite (st : Story) (a : List Nat)
    (h : (stitch st).2 = Except.ok a) :
    (stitch (stitch st).1).2 = Except.ok a ∧
    (stitch (stitch st).1).1.finalArtifact = some a ∧
    canStitch (stitch st).1 = false := by
  cases hemp : (sortBySeq st.segments).isEmpty with
  | true => simp [stitch, hemp] at h
  | false =>
    cases hfind : (sortBySeq st.segments).find? (fun s => !(s.status == SegStatus.completed)) with
    | some b => simp [stitch, hemp, hfind] at h
    | none =>
      have ha : ((sortBySeq st.segments).map Segment.video).flatten = a := by
        simpa [stitch, hemp, hfind] using h
      have hst1 : (stitch st).1 = { st with finalArtifact := some a } := by
        simp [stitch, hemp, hfind, ha]
      refine ⟨?_, ?_, ?_⟩
      · rw [hst1]
        simpa [stitch, hemp, hfind] using congrArg some ha
      · rw [hst1]
        simp [stitch, hemp, hfind, ha]
      · rw [hst1]
        simp [canStitch]

/-- Witness for the amended C3 on a concrete one-segment story. -/
theorem stitch_idempotent_overwrite_witness :
    (stitch (stitch storyC3).1).2 = Except.ok [7, 7] ∧
    (stitch (stitch storyC3).1).1.finalArtifact = some [7, 7] ∧
    canStitch (stitch storyC3).1 = false :=
  stitch_idempotent_overwrite storyC3 [7, 7] rfl

/-! ## Story Orchestrator: adding a segment -/

/-- Errors of the Orchestrator's `addSegment`. -/
inductive AddSegmentError where
  | noPriorSegment
  | previousNotCompleted (sequence_number : Nat)
deriving DecidableEq, Repr

/-- A generation request as submitted to the external generation service. -/
structure Submission where
  prompt : String
  seedImage : Option (List Nat)
  usePreviousFrame : Bool
deriving DecidableEq, Repr

/-- The story's most recent segment: the one with the highest sequence
number. -/
def latestSegment (st : Story) : Option Segment :=
  (sortBySeq st.segments).getLast?

/-- The highest sequence number in use (0 when there are none). -/
def maxSeq (l : List Segment) : Nat :=
  match l with
  | [] => 0
  | s :: t => max s.sequence_number (maxSeq t)

/-- Modelled from the spec: the Orchestrator's `addSegment`
(`POST /stories/:id/generate`) lives in the Flask backend, which is not among
the available sources.  Spec (sections 4.5 and 5): with `usePreviousFrame`
set, it refuses while the most recent segment is not yet `completed`, and
signals `NoPriorSegment` when the story has no segment to continue from;
otherwise it seeds from the prior segment's continuity frame (or from the
caller's image), appends a segment with sequence number max+1, submits the
generation request, and marks the new segment `generating`. -/
def addSegment (st : Story) (prompt : String) (seedImage : Option (List Nat))
    (usePreviousFrame : Bool) : Except AddSegmentError (Story × Submission) :=
  let proceed : Option (List Nat) → Except AddSegmentError (Story × Submission) := fun seed =>
    let seq := maxSeq st.segments + 1
    let seg : Segment :=
      { segId := seq, sequence_number := seq, status := SegStatus.generating,
        operation_id := some seq, video := [], continuity_frame := none }
    Except.ok ({ st with segments := st.segments ++ [seg] },
      { prompt := prompt, seedImage := seed, usePreviousFrame := usePreviousFrame })
  if usePreviousFrame then
    match latestSegment st with
    | none => Except.error AddSegmentError.noPriorSegment
    | some last =>
      if last.status == SegStatus.completed then proceed last.continuity_frame
      else Except.error (AddSegmentError.previousNotCompleted last.sequence_number)
  else proceed seedImage

/-- Claim C2: a segment whose generation uses the previous frame is never
submitted while the story's most recent segment has not reached `completed`:
`addSegment` with `usePreviousFrame = true` is refused with a blocking error
(no story update, no submission) whenever the latest segment is not yet
`completed`. -/
theorem addSegment_refuses_while_generating (st : Story) (prompt : String)
    (seedImage : Option (List Nat)) (last : Segment)
    (h1 : latestSegment st = some last) (h2 : last.status ≠ SegStatus.completed) :
    addSegment st prompt seedImage true =
      Except.error (AddSegmentError.previousNotCompleted last.sequence_number) := by
  simp [addSegment, h1, h2]

/-- A story whose single (and hence most recent) segment is still generating. -/
def storyGenerating : Story :=
  ⟨[⟨1, 1, SegStatus.generating, some 5, [], none⟩], none⟩

/-- Witness for C2: on a story whose latest segment is `generating`, a
use-previous-frame submission is rejected, not queued. -/
theorem addSegment_refuses_while_generating_witness :
    addSegment storyGenerating "next scene" none true =
      Except.error (AddSegmentError.previousNotCompleted 1) :=
  addSegment_refuses_while_generating storyGenerating "next scene" none
    ⟨1, 1, SegStatus.generating, some 5, [], none⟩ (by decide) (by decide)

/-- Claim C5: on a story with zero segments, `addSegment` requested with
`usePreviousFrame = true` fails with `NoPriorSegment`; nothing is submitted. -/
theorem addSegment_noPriorSegment (st : Story) (prompt : String)
    (seedImage : Option (List Nat)) (h : st.segments = []) :
    addSegment st prompt seedImage true = Except.error AddSegmentError.noPriorSegment := by
  simp [addSegment, latestSegment, sortBySeq, h, List.insertionSort]

/-- Witness for C5 on the empty story. -/
theorem addSegment_noPriorSegment_witness :
    addSegment ⟨[], none⟩ "opening scene" none true =
      Except.error AddSegmentError.noPriorSegment :=
  addSegment_noPriorSegment ⟨[], none⟩ "opening scene" none rfl

/-! ## Status polling (`StoryContext.js`, lines 414-467)

`startStatusPolling` guards on the `activePollsRef` set, registers the
operation id, creates a `setInterval` poller and schedules a `setTimeout`
that, 10 minutes later, clears that very interval and deletes the id from the
set (the timeout is never cancelled).  Each interval tick fetches
`/generation-status/:id`, dispatches `UPDATE_GENERATION_STATUS` with the
response verbatim, and on `completed`/`failed` — or on a transport error —
clears the interval and deletes the id.  The browser event loop serialises
all of this, so it is embedded as a transition system driven by an explicit
list of events. -/

/-- A `/generation-status/:id` response body as the frontend reads it
(`status.status`, `status.segment_id`, `status.error`, `status.video_url`). -/
structure StatusPayload where
  status : SegStatus
  segment_id : Option Nat
  error : Option String
  video_url : Option (List Nat)
deriving DecidableEq, Repr

/-- The reducer case `UPDATE_GENERATION_STATUS`: store the payload for the
operation id, overwriting any previous entry. -/
def updateGenerationStatus (gs : List (Nat × StatusPayload)) (operationId : Nat)
    (payload : StatusPayload) : List (Nat × StatusPayload) :=
  (operationId, payload) :: gs.filter fun p => p.1 != operationId

/-- Read `state.generationStatus[operationId]`. -/
def lookupStatus (gs : List (Nat × StatusPayload)) (operationId : Nat) :
    Option StatusPayload :=
  (gs.find? fun p => p.1 == operationId).map Prod.snd

/-- The timer-related state of `StoryProvider`: the `activePollsRef` set, the
live `setInterval` handles (with the operation each polls), the armed
10-minute `setTimeout`s (with the interval handle each would clear and the
operation id each would delete), a fresh-handle counter, and
`state.generationStatus`. -/
structure PollState where
  activePolls : List Nat
  liveIntervals : List (Nat × Nat)
  pendingTimeouts : List (Nat × Nat)
  nextIntervalId : Nat
  generationStatus : List (Nat × StatusPayload)
deriving DecidableEq, Repr

/-- The provider's initial timer state. -/
def initPollState : PollState :=
  ⟨[], [], [], 0, []⟩

/-- `startStatusPolling(operationId)`: no-op while the id is in
`activePollsRef`; otherwise add the id, create an interval and arm its
10-minute timeout. -/
def startStatusPolling (operationId : Nat) (s : PollState) : PollState :=
  if operationId ∈ s.activePolls then s
  else
    { s with
      activePolls := operationId :: s.activePolls
      liveIntervals := (s.nextIntervalId, operationId) :: s.liveIntervals
      pendingTimeouts := (s.nextIntervalId, operationId) :: s.pendingTimeouts
      nextIntervalId := s.nextIntervalId + 1 }

/-- `clearInterval(handle)`: the interval stops ticking. -/
def clearPollInterval (intervalId : Nat) (s : PollState) : PollState :=
  { s with liveIntervals := s.liveIntervals.filter fun p => p.1 != intervalId }

/-- `activePollsRef.current.delete(operationId)`. -/
def deleteActivePoll (operationId : Nat) (s : PollState) : PollState :=
  { s with activePolls := s.activePolls.erase operationId }

/-- External events driving the poller state: a `startStatusPolling` call, a
tick of a live interval that received a response, a tick that hit a transport
error, and the firing of an armed 10-minute timeout. -/
inductive PollEvent where
  | start (operationId : Nat)
  | observe (intervalId : Nat) (payload : StatusPayload)
  | pollError (intervalId : Nat)
  | timeout (intervalId : Nat) (operationId : Nat)
deriving DecidableEq, Repr

/-- One step of the poller machinery, straight from the bodies of the
`setInterval` callback (observe / pollError), the `setTimeout` callback
(timeout) and `startStatusPolling` itself. -/
def pollStep (s : PollState) : PollEvent → PollState
  | PollEvent.start operationId => startStatusPolling operationId s
  | PollEvent.observe intervalId payload =>
    match s.liveIntervals.find? fun p => p.1 == intervalId with
    | none => s
    | some q =>
      let s1 := { s with
        generationStatus := updateGenerationStatus s.generationStatus q.2 payload }
      if payload.status == SegStatus.completed || payload.status == SegStatus.failed then
        deleteActivePoll q.2 (clearPollInterval intervalId s1)
      else s1
  | PollEvent.pollError intervalId =>
    match s.liveIntervals.find? fun p => p.1 == intervalId with
    | none => s
    | some q => deleteActivePoll q.2 (clearPollInterval intervalId s)
  | PollEvent.timeout intervalId operationId =>
    if (intervalId, operationId) ∈ s.pendingTimeouts then
      deleteActivePoll operationId (clearPollInterval intervalId
        { s with pendingTimeouts :=
            s.pendingTimeouts.filter fun p => p != (intervalId, operationId) })
    else s

/-- Run a list of events. -/
def pollRun (s : PollState) (evs : List PollEvent) : PollState :=
  evs.foldl pollStep s

/-- `resumePollingForStory(story)`: start a poller for every segment that is
`generating` or `publishing` and carries an `operation_id`. -/
def resumePollingForStory (story : Story) (s : PollState) : PollState :=
  (story.segments.filter fun seg =>
      (seg.status == SegStatus.generating || seg.status == SegStatus.publishing)
        && seg.operation_id.isSome).foldl
    (fun s seg =>
      match seg.operation_id with
      | some operationId => startStatusPolling operationId s
      | none => s) s

/-- The bookkeeping invariant tying `activePollsRef` to the live intervals:
the operations polled by live intervals are exactly the ids in the set (as a
multiset), the set has no duplicates, interval handles are distinct, and all
handles are below the fresh-handle counter. -/
def PollInv (s : PollState) : Prop :=
  (s.liveIntervals.map Prod.snd).Perm s.activePolls ∧
  s.activePolls.Nodup ∧
  (s.liveIntervals.map Prod.fst).Nodup ∧
  ∀ p ∈ s.liveIntervals, p.1 < s.nextIntervalId

theorem pollInv_init : PollInv initPollState := by
  refine ⟨List.Perm.refl _, List.nodup_nil, List.nodup_nil, ?_⟩
  intro p hp
  cases hp

theorem pollInv_start (s : PollState) (operationId : Nat) (h : PollInv s) :
    PollInv (startStatusPolling operationId s) := by
  obtain ⟨h1, h2, h3, h4⟩ := h
  by_cases hmem : operationId ∈ s.activePolls
  · simpa [startStatusPolling, hmem] using ⟨h1, h2, h3, h4⟩
  · simp only [startStatusPolling, if_neg hmem]
    refine ⟨?_, ?_, ?_, ?_⟩
    · simpa using h1.cons operationId
    · exact List.nodup_cons.mpr ⟨hmem, h2⟩
    · refine List.nodup_cons.mpr ⟨?_, h3⟩
      intro hin
      obtain ⟨p, hp, hfst⟩ := List.mem_map.mp hin
      exact absurd (hfst ▸ h4 p hp) (lt_irrefl _)
    · intro p hp
      rcases List.mem_cons.mp hp with hp | hp
      · subst hp
        exact Nat.lt_succ_self _
      · exact Nat.lt_succ_of_lt (h4 p hp)

theorem pollInv_setGen (s : PollState) (gs : List (Nat × StatusPayload))
    (h : PollInv s) : PollInv { s with generationStatus := gs } := by
  simpa [PollInv] using h

theorem pollInv_remove (s : PollState) (q : Nat × Nat) (hq : q ∈ s.liveIntervals)
    (h : PollInv s) : PollInv (deleteActivePoll q.2 (clearPollInterval q.1 s)) := by
  obtain ⟨h1, h2, h3, h4⟩ := h
  obtain ⟨l₁, l₂, hdecomp⟩ := List.append_of_mem hq
  have h3' : ((l₁ ++ q :: l₂).map Prod.fst).Nodup := hdecomp ▸ h3
  rw [List.map_append, List.map_cons] at h3'
  have hmid := List.nodup_cons.mp (List.nodup_middle.mp h3')
  have hnotin : ∀ p ∈ l₁ ++ l₂, p.1 ≠ q.1 := by
    intro p hp hfst
    refine hmid.1 ?_
    have hmm : p.1 ∈ (l₁ ++ l₂).map Prod.fst := List.mem_map_of_mem Prod.fst hp
    rw [List.map_append] at hmm
    simpa [hfst] using hmm
  have hfilter : s.liveIntervals.filter (fun p => p.1 != q.1) = l₁ ++ l₂ := by
    rw [hdecomp, List.filter_append, List.filter_cons]
    have hl₁ : l₁.filter (fun p => p.1 != q.1) = l₁ :=
      List.filter_eq_self.mpr fun p hp => by
        simpa using hnotin p (List.mem_append_left _ hp)
    have hl₂ : l₂.filter (fun p => p.1 != q.1) = l₂ :=
      List.filter_eq_self.mpr fun p hp => by
        simpa using hnotin p (List.mem_append_right _ hp)
    simp [hl₁, hl₂]
  have hmact : q.2 ∈ s.activePolls :=
    h1.subset (List.mem_map_of_mem Prod.snd hq)
  have emid : ((l₁.map Prod.snd) ++ q.2 :: (l₂.map Prod.snd)).Perm
      (q.2 :: ((l₁.map Prod.snd) ++ (l₂.map Prod.snd))) := List.perm_middle
  have e1 : (q.2 :: ((l₁ ++ l₂).map Prod.snd)).Perm
      ((l₁.map Prod.snd) ++ q.2 :: (l₂.map Prod.snd)) := by
    simpa [List.map_append] using emid.symm
  have e2 : (l₁.map Prod.snd) ++ q.2 :: (l₂.map Prod.snd) = s.liveIntervals.map Prod.snd := by
    rw [hdecomp]
    simp
  have h1' : ((l₁.map Prod.snd) ++ q.2 :: (l₂.map Prod.snd)).Perm s.activePolls := by
    rw [e2]
    exact h1
  have key : (q.2 :: ((l₁ ++ l₂).map Prod.snd)).Perm (q.2 :: s.activePolls.erase q.2) :=
    (e1.trans h1').trans (List.perm_cons_erase hmact)
  refine ⟨?_, ?_, ?_, ?_⟩
  · show ((s.liveIntervals.filter fun p => p.1 != q.1).map Prod.snd).Perm
      (s.activePolls.erase q.2)
    rw [hfilter]
    exact key.cons_inv
  · exact h2.erase _
  · exact List.Nodup.sublist ((List.filter_sublist _).map Prod.fst) h3
  · intro p hp
    exact h4 p (List.mem_filter.mp hp).1

/-- Discriminates the 10-minute timeout events. -/
def isTimeoutEvent : PollEvent → Bool
  | PollEvent.timeout _ _ => true
  | _ => false

/-- Whether the event list contains a timeout firing. -/
def hasTimeoutEvent (evs : List PollEvent) : Bool :=
  evs.any isTimeoutEvent

theorem pollInv_step (s : PollState) (e : PollEvent) (h : PollInv s)
    (hne : isTimeoutEvent e = false) : PollInv (pollStep s e) := by
  cases e with
  | start operationId => exact pollInv_start s operationId h
  | observe intervalId payload =>
    cases hfind : s.liveIntervals.find? (fun p => p.1 == intervalId) with
    | none => simpa only [pollStep, hfind] using h
    | some q =>
      have hq : q ∈ s.liveIntervals := List.mem_of_find?_eq_some hfind
      have hfst : q.1 = intervalId := by simpa using List.find?_some hfind
      simp only [pollStep, hfind]
      by_cases hterm :
          (payload.status == SegStatus.completed || payload.status == SegStatus.failed) = true
      · rw [if_pos hterm, ← hfst]
        exact pollInv_remove _ q hq (pollInv_setGen s _ h)
      · rw [if_neg hterm]
        exact pollInv_setGen s _ h
  | pollError intervalId =>
    cases hfind : s.liveIntervals.find? (fun p => p.1 == intervalId) with
    | none => simpa only [pollStep, hfind] using h
    | some q =>
      have hq : q ∈ s.liveIntervals := List.mem_of_find?_eq_some hfind
      have hfst : q.1 = intervalId := by simpa using List.find?_some hfind
      simp only [pollStep, hfind]
      rw [← hfst]
      exact pollInv_remove s q hq h
  | timeout intervalId operationId => simp [isTimeoutEvent] at hne

theorem pollInv_run (s : PollState) (evs : List PollEvent) (h : PollInv s)
    (hnt : hasTimeoutEvent evs = false) : PollInv (pollRun s evs) := by
  induction evs generalizing s with
  | nil => exact h
  | cons e t ih =>
    rw [hasTimeoutEvent, List.any_cons, Bool.or_eq_false_iff] at hnt
    exact ih (pollStep s e) (pollInv_step s e h hnt.1) hnt.2

/-- The provider state that the poll events act on: the loaded story plus the
timer state.  The interval, error and timeout callbacks touch only the timer
state — in particular the timeout callback runs exactly
`clearInterval(pollInterval); activePollsRef.current.delete(operationId)`
and nothing else. -/
structure AppState where
  story : Story
  poll : PollState
deriving DecidableEq, Repr

/-- One poll event on the provider state. -/
def appStep (s : AppState) (e : PollEvent) : AppState :=
  { s with poll := pollStep s.poll e }

/-- Run a list of poll events on the provider state. -/
def appRun (s : AppState) (evs : List PollEvent) : AppState :=
  evs.foldl appStep s

/-- Claim C4 counterexample: start polling operation 5 of a story whose
segment is `generating`, then let the 10-minute cap fire.  Polling stops
(no active poll, no live interval) but the segment still carries status
`generating` — it was never marked `failed` with a `Timeout` reason. -/
theorem polling_timeout_counterexample :
    (appRun ⟨storyGenerating, initPollState⟩
        [PollEvent.start 5, PollEvent.timeout 0 5]).poll.activePolls = [] ∧
    (appRun ⟨storyGenerating, initPollState⟩
        [PollEvent.start 5, PollEvent.timeout 0 5]).poll.liveIntervals = [] ∧
    ∃ seg ∈ (appRun ⟨storyGenerating, initPollState⟩
        [PollEvent.start 5, PollEvent.timeout 0 5]).story.segments,
      seg.operation_id = some 5 ∧ seg.status = SegStatus.generating := by
  decide

/-- Claim C4 (amended): polling is bounded — when an armed 10-minute timeout
fires, its interval is cleared and the operation id removed from the
active-polls set, so that operation is no longer polled — but the segment is
not marked `failed` with a `Timeout` reason: the story and the recorded
generation statuses are left exactly as they were. -/
theorem polling_timeout_stops_without_failing (s : AppState)
    (intervalId operationId : Nat)
    (hpend : (intervalId, operationId) ∈ s.poll.pendingTimeouts)
    (hnd : s.poll.activePolls.Nodup) :
    (appStep s (PollEvent.timeout intervalId operationId)).story = s.story ∧
    (appStep s (PollEvent.timeout intervalId operationId)).poll.generationStatus =
      s.poll.generationStatus ∧
    operationId ∉ (appStep s (PollEvent.timeout intervalId operationId)).poll.activePolls ∧
    ∀ p ∈ (appStep s (PollEvent.timeout intervalId operationId)).poll.liveIntervals,
      p.1 ≠ intervalId := by
  refine ⟨rfl, ?_, ?_, ?_⟩
  · simp [appStep, pollStep, hpend, deleteActivePoll, clearPollInterval]
  · simp only [appStep, pollStep, if_pos hpend, deleteActivePoll, clearPollInterval]
    intro hmem
    exact ((List.Nodup.mem_erase_iff hnd).mp hmem).1 rfl
  · simp only [appStep, pollStep, if_pos hpend, deleteActivePoll, clearPollInterval]
    intro p hp
    simpa using (List.mem_filter.mp hp).2

/-- Concrete state for the C4 witness: polling of operation 5 has started. -/
def pollStartedState : AppState :=
  appRun ⟨storyGenerating, initPollState⟩ [PollEvent.start 5]

/-- Witness for the amended C4 at the concrete started-poll state. -/
theorem polling_timeout_stops_without_failing_witness :
    (appStep pollStartedState (PollEvent.timeout 0 5)).story = pollStartedState.story ∧
    (appStep pollStartedState (PollEvent.timeout 0 5)).poll.generationStatus =
      pollStartedState.poll.generationStatus ∧
    5 ∉ (appStep pollStartedState (PollEvent.timeout 0 5)).poll.activePolls ∧
    ∀ p ∈ (appStep pollStartedState (PollEvent.timeout 0 5)).poll.liveIntervals,
      p.1 ≠ 0 :=
  polling_timeout_stops_without_failing pollStartedState 0 5 (by decide) (by decide)

/-- Claim C9 counterexample: start polling operation 7; the poll errors (the
interval is cleared and the id evicted, but the 10-minute timeout stays
armed); a story reload resumes polling (second interval); the stale timeout
then fires, clearing the long-dead first interval and evicting the id while
interval 1 is still live; a further resume starts interval 2.  Two intervals
for operation 7 are now live at once, refuting the at-most-one-poller
invariant. -/
theorem duplicate_poller_counterexample :
    ((pollRun initPollState
        [PollEvent.start 7, PollEvent.pollError 0, PollEvent.start 7,
         PollEvent.timeout 0 7, PollEvent.start 7]).liveIntervals.filter
      fun p => p.2 == 7).length = 2 := by
  decide

/-- Membership after `startStatusPolling`: the only id possibly added is the
one passed. -/
theorem startStatusPolling_mem (s : PollState) (o op : Nat)
    (h : op ∈ (startStatusPolling o s).activePolls) :
    op = o ∨ op ∈ s.activePolls := by
  by_cases hm : o ∈ s.activePolls
  · simp only [startStatusPolling, if_pos hm] at h
    exact Or.inr h
  · simp only [startStatusPolling, if_neg hm] at h
    exact List.mem_cons.mp h

theorem resume_foldl_mem (l : List Segment) (s : PollState) (op : Nat)
    (h : op ∈ (l.foldl (fun s seg =>
        match seg.operation_id with
        | some operationId => startStatusPolling operationId s
        | none => s) s).activePolls) :
    op ∈ s.activePolls ∨ ∃ seg ∈ l, seg.operation_id = some op := by
  induction l generalizing s with
  | nil => exact Or.inl h
  | cons a t ih =>
    rw [List.foldl_cons] at h
    rcases ih _ h with h' | ⟨seg, hm, ho⟩
    · cases hoa : a.operation_id with
      | none =>
        rw [hoa] at h'
        exact Or.inl h'
      | some o =>
        rw [hoa] at h'
        rcases startStatusPolling_mem s o op h' with rfl | hin
        · exact Or.inr ⟨a, List.mem_cons_self a t, hoa⟩
        · exact Or.inl hin
    · exact Or.inr ⟨seg, List.mem_cons_of_mem a hm, ho⟩

/-- Claim C9 (amended): `startStatusPolling` is a no-op while the operation id
is in the active-polls set; in every run without a timeout firing (so while
no stale 10-minute timeout has evicted an id out from under a live poller) at
most one interval per operation id is live; and `resumePollingForStory`
starts pollers only for operation ids carried by segments whose status is
`generating` or `publishing`.  The unconditional eviction performed by a
stale timeout is what makes the restriction necessary — see the
counterexample. -/
theorem poller_guard (evs : List PollEvent) (hnt : hasTimeoutEvent evs = false) :
    ((pollRun initPollState evs).liveIntervals.map Prod.snd).Nodup ∧
    (∀ s op, op ∈ s.activePolls → startStatusPolling op s = s) ∧
    (∀ story s op, op ∈ (resumePollingForStory story s).activePolls →
      op ∈ s.activePolls ∨ ∃ seg ∈ story.segments,
        (seg.status = SegStatus.generating ∨ seg.status = SegStatus.publishing) ∧
        seg.operation_id = some op) := by
  refine ⟨?_, ?_, ?_⟩
  · obtain ⟨h1, h2, _, _⟩ := pollInv_run initPollState evs pollInv_init hnt
    exact h1.nodup_iff.mpr h2
  · intro s op hmem
    simp [startStatusPolling, hmem]
  · intro story s op hmem
    rcases resume_foldl_mem _ s op hmem with h' | ⟨seg, hm, ho⟩
    · exact Or.inl h'
    · obtain ⟨hseg, hpred⟩ := List.mem_filter.mp hm
      refine Or.inr ⟨seg, hseg, ?_, ho⟩
      have := (Bool.and_eq_true _ _).mp hpred
      rcases Bool.or_eq_true _ _ |>.mp this.1 with hg | hp
      · exact Or.inl (by simpa using hg)
      · exact Or.inr (by simpa using hp)

/-- Witness for the amended C9 on a one-event run. -/
theorem poller_guard_witness :
    ((pollRun initPollState [PollEvent.start 3]).liveIntervals.map Prod.snd).Nodup ∧
    (∀ s op, op ∈ s.activePolls → startStatusPolling op s = s) ∧
    (∀ story s op, op ∈ (resumePollingForStory story s).activePolls →
      op ∈ s.activePolls ∨ ∃ seg ∈ story.segments,
        (seg.status = SegStatus.generating ∨ seg.status = SegStatus.publishing) ∧
        seg.operation_id = some op) :=
  poller_guard [PollEvent.start 3] (by decide)

/-! ## Generation status reporting -/

/-- Modelled from the spec: the status a poll of the Generation Operation
Tracker reports (section 4.2) is three-valued — `pending`, `completed` with
the output location, or `failed` with the external service's reason. -/
inductive TrackerStatus where
  | pending
  | completed (video : List Nat)
  | failed (reason : String)
deriving DecidableEq, Repr

/-- Modelled from the spec: a GenerationOperation record with the operation's
current externally-observable outcome. -/
structure GenerationOperation where
  report : TrackerStatus
deriving DecidableEq, Repr

/-- Modelled from the spec: the Tracker's `poll` (section 4.2) — idempotent,
safe to call repeatedly; what it returns is a function of the external
operation alone, whatever the count of earlier polls may be.  (The
`pollCount` argument records exactly that independence.) -/
def trackerPoll (op : GenerationOperation) (_pollCount : Nat) : TrackerStatus :=
  op.report

theorem lookupStatus_update (gs : List (Nat × StatusPayload)) (operationId : Nat)
    (payload : StatusPayload) :
    lookupStatus (updateGenerationStatus gs operationId payload) operationId =
      some payload := by
  simp [lookupStatus, updateGenerationStatus, List.find?_cons]

/-- Claim C6: the core's generation-status reporting is three-valued and
never a fabricated progress percentage — the Tracker's poll result depends
only on the external operation (never on a per-poll counter), the reducer
stores every observed payload verbatim, and an interval tick exposes exactly
the payload the service reported for its operation.  (The `+12`-per-poll
progress bar lives only in the presentation layer, outside the core.) -/
theorem generation_status_pass_through :
    (∀ (op : GenerationOperation) (n m : Nat), trackerPoll op n = trackerPoll op m) ∧
    (∀ gs operationId payload,
      lookupStatus (updateGenerationStatus gs operationId payload) operationId =
        some payload) ∧
    (∀ (s : PollState) (intervalId : Nat) (payload : StatusPayload) (q : Nat × Nat),
      s.liveIntervals.find? (fun p => p.1 == intervalId) = some q →
      lookupStatus (pollStep s (PollEvent.observe intervalId payload)).generationStatus q.2 =
        some payload) := by
  refine ⟨fun _ _ _ => rfl, lookupStatus_update, ?_⟩
  intro s intervalId payload q hfind
  simp only [pollStep, hfind]
  by_cases hterm :
      (payload.status == SegStatus.completed || payload.status == SegStatus.failed) = true
  · rw [if_pos hterm]
    simpa [deleteActivePoll, clearPollInterval] using
      lookupStatus_update s.generationStatus q.2 payload
  · rw [if_neg hterm]
    exact lookupStatus_update s.generationStatus q.2 payload

/-- A concrete `publishing` status payload. -/
def payloadPublishing : StatusPayload :=
  ⟨SegStatus.publishing, some 1, none, none⟩

/-- Witness for C6: a concrete tick of interval 0 polling operation 5 exposes
exactly the observed payload. -/
theorem generation_status_pass_through_witness :
    lookupStatus (pollStep ⟨[5], [(0, 5)], [(0, 5)], 1, []⟩
        (PollEvent.observe 0 payloadPublishing)).generationStatus 5 =
      some payloadPublishing :=
  generation_status_pass_through.2.2 ⟨[5], [(0, 5)], [(0, 5)], 1, []⟩ 0
    payloadPublishing (0, 5) rfl

/-! ## Segment Store: sequence numbering -/

/-- Modelled from the spec: `Segment Store.append` (section 4.3) allocates the
next sequence number — max existing + 1, or 1 when the story has none — and
creates the segment in `pending`. -/
def appendSegment (l : List Segment) (_prompt : String) : List Segment :=
  l ++ [{ segId := maxSeq l + 1, sequence_number := maxSeq l + 1,
          status := SegStatus.pending, operation_id := none,
          video := [], continuity_frame := none }]

/-- Modelled from the spec: `Segment Store.delete` (section 4.3) removes a
segment; the remaining segments keep their original sequence numbers (a gap
is left deliberately). -/
def deleteStoreSegment (l : List Segment) (seq : Nat) : List Segment :=
  l.filter fun s => s.sequence_number != seq

/-- The write operations a story's segment collection is built with. -/
inductive StoreOp where
  | append (prompt : String)
  | delete (seq : Nat)
deriving DecidableEq, Repr

/-- Replay a history of store operations starting from the empty story. -/
def runStore (ops : List StoreOp) : List Segment :=
  ops.foldl
    (fun l o =>
      match o with
      | StoreOp.append prompt => appendSegment l prompt
      | StoreOp.delete seq => deleteStoreSegment l seq) []

/-- `Segment Store.list` as the frontend renders it: ordered by sequence
number ascending (`StoryViewPage.js`, line 313). -/
def listSegments (l : List Segment) : List Segment :=
  sortBySeq l

theorem mem_le_maxSeq (l : List Segment) (s : Segment) (h : s ∈ l) :
    s.sequence_number ≤ maxSeq l := by
  induction l with
  | nil => cases h
  | cons a t ih =>
    rcases List.mem_cons.mp h with rfl | h
    · exact Nat.le_max_left _ _
    · exact Nat.le_trans (ih h) (Nat.le_max_right _ _)

theorem runStore_seq_nodup (ops : List StoreOp) :
    ((runStore ops).map Segment.sequence_number).Nodup := by
  suffices key : ∀ (ops : List StoreOp) (l : List Segment),
      (l.map Segment.sequence_number).Nodup →
      ((ops.foldl
        (fun l o =>
          match o with
          | StoreOp.append prompt => appendSegment l prompt
          | StoreOp.delete seq => deleteStoreSegment l seq) l).map
        Segment.sequence_number).Nodup by
    exact key ops [] List.nodup_nil
  intro ops
  induction ops with
  | nil => intro l h; exact h
  | cons o t ih =>
    intro l h
    rw [List.foldl_cons]
    refine ih _ ?_
    cases o with
    | append prompt =>
      have hnotin : ∀ x ∈ l, x.sequence_number ≠ maxSeq l + 1 := by
        intro x hx heq
        have := mem_le_maxSeq l x hx
        omega
      simpa [appendSegment, List.nodup_append] using ⟨h, hnotin⟩
    | delete seq =>
      exact List.Nodup.sublist
        ((List.filter_sublist _).map Segment.sequence_number) h

/-- Claim C8: for every story reachable by Segment Store appends and deletes,
listing its segments returns them ordered by sequence number ascending, with
sequence numbers strictly increasing. -/
theorem listSegments_strictly_increasing (ops : List StoreOp) :
    (listSegments (runStore ops)).Pairwise
      (fun a b => a.sequence_number < b.sequence_number) := by
  have hsorted : (sortBySeq (runStore ops)).Sorted seqLE :=
    List.sorted_insertionSort seqLE (runStore ops)
  have hperm : (sortBySeq (runStore ops)).Perm (runStore ops) :=
    List.perm_insertionSort seqLE (runStore ops)
  have hnd : ((sortBySeq (runStore ops)).map Segment.sequence_number).Nodup :=
    ((hperm.map Segment.sequence_number).nodup_iff).mpr (runStore_seq_nodup ops)
  have hne : (sortBySeq (runStore ops)).Pairwise
      (fun a b => a.sequence_number ≠ b.sequence_number) :=
    List.pairwise_map.mp hnd
  exact (hsorted.and hne).imp fun h => Nat.lt_of_le_of_ne h.1 h.2

/-! ## Client-side prompt validation -/

/-- What a click handler does: reject synchronously with a toast message, or
submit a generation request. -/
inductive AddSegmentAction where
  | rejected (message : String)
  | submit (request : Submission)
deriving DecidableEq, Repr

/-- The generation requests an action causes: none when rejected. -/
def submissionsOf : AddSegmentAction → List Submission
  | AddSegmentAction.rejected _ => []
  | AddSegmentAction.submit r => [r]

/-- `StoryViewPage.js`, lines 31-43 (`handleAddSegment`): guard
`if (!newPrompt.trim())` rejects with a toast and returns; otherwise call
`generateVideoSegment(storyId, newPrompt, null, true)`. -/
def handleAddSegment (newPrompt : String) : AddSegmentAction :=
  if jsTrim newPrompt == "" then
    AddSegmentAction.rejected "Please enter a prompt for the new segment"
  else
    AddSegmentAction.submit
      { prompt := newPrompt, seedImage := none, usePreviousFrame := true }

/-- What `handlePromptSubmit` does: reject, or call
`generateStoryFromPrompt`. -/
inductive PromptSubmitAction where
  | rejected (message : String)
  | generateStory (prompt : String) (targetDurationSeconds : Nat)
deriving DecidableEq, Repr

/-- `StoryCreatorPage.js`, lines 166-177 (`handlePromptSubmit`): guard
`if (!storyPrompt.trim())` rejects with a toast and returns; otherwise submit
the story prompt for expansion. -/
def handlePromptSubmit (storyPrompt : String) (targetDurationSeconds : Nat) :
    PromptSubmitAction :=
  if jsTrim storyPrompt == "" then
    PromptSubmitAction.rejected "Please enter a story prompt"
  else
    PromptSubmitAction.generateStory storyPrompt targetDurationSeconds

/-- Claim C7: an empty or all-whitespace prompt is rejected synchronously by
the add-segment and story-prompt handlers as a validation error — no
generation request is submitted (and, the decision being a single pure guard,
nothing is retried). -/
theorem blank_prompt_rejected (p : String) (h : p.data.all isJsSpace = true) :
    handleAddSegment p =
      AddSegmentAction.rejected "Please enter a prompt for the new segment" ∧
    submissionsOf (handleAddSegment p) = [] ∧
    ∀ d, handlePromptSubmit p d =
      PromptSubmitAction.rejected "Please enter a story prompt" := by
  have ht : jsTrim p = "" := jsTrim_of_all_space p h
  refine ⟨?_, ?_, ?_⟩
  · simp [handleAddSegment, ht]
  · simp [handleAddSegment, ht, submissionsOf]
  · intro d
    simp [handlePromptSubmit, ht]

/-- Witness for C7 on a whitespace-only prompt. -/
theorem blank_prompt_rejected_witness :
    handleAddSegment "  \t " =
      AddSegmentAction.rejected "Please enter a prompt for the new segment" ∧
    submissionsOf (handleAddSegment "  \t ") = [] ∧
    ∀ d, handlePromptSubmit "  \t " d =
      PromptSubmitAction.rejected "Please enter a story prompt" :=
  blank_prompt_rejected "  \t " (by decide)

/-! ## Story creation from a generated story
(`StoryContext.js`, lines 351-391) -/

/-- The generated story data the wizard carries
(`currentStoryGeneration`). -/
structure StoryGeneration where
  title : Option String
  premise : Option String
  prompt : Option String
deriving DecidableEq, Repr

/-- `StoryContext.js`, lines 358-362: `rawTitle = (title || '').trim()`;
`fallbackTitle = rawTitle ? rawTitle : (premise || prompt ||
'Untitled Story').slice(0, 60)`. -/
def fallbackTitle (g : StoryGeneration) : String :=
  let rawTitle := jsTrim (jsOrString g.title "")
  if rawTitle == "" then
    jsSlice (jsOrString g.premise (jsOrString g.prompt "Untitled Story")) 60
  else rawTitle

/-- The story record `createStory(fallbackTitle, premise || '', userId)`
produces. -/
structure CreatedStory where
  title : String
  description : String
deriving DecidableEq, Repr

/-- `StoryContext.js`, lines 351-391 (`createStoryFromGeneration`): create
the story with the computed fallback title and the premise as description;
persisting the generation data afterwards is wrapped in its own `try/catch`
whose failure is only logged, so the created story is returned either way
(`persistOk` records whether `saveStoryGeneration` succeeded). -/
def createStoryFromGeneration (g : StoryGeneration) (persistOk : Bool) :
    CreatedStory :=
  let story : CreatedStory :=
    { title := fallbackTitle g, description := jsOrString g.premise "" }
  match persistOk with
  | true => story
  | false => story

/-- The title rule exactly as the claim words it: the trimmed generation
title when non-empty, otherwise the first 60 characters of the premise or
the prompt, otherwise the literal Untitled Story. -/
def claimTitle (g : StoryGeneration) : String :=
  if jsTrim (g.title.getD "") ≠ "" then jsTrim (g.title.getD "")
  else if g.premise.getD "" ≠ "" then jsSlice (g.premise.getD "") 60
  else if g.prompt.getD "" ≠ "" then jsSlice (g.prompt.getD "") 60
  else "Untitled Story"

theorem jsOrString_empty_default (v : Option String) :
    jsOrString v "" = v.getD "" := by
  cases v with
  | none => rfl
  | some s =>
    by_cases hs : s = ""
    · simp [jsOrString, hs]
    · simp [jsOrString, hs]

theorem jsOrString_of_falsy (v : Option String) (d : String) (h : v.getD "" = "") :
    jsOrString v d = d := by
  cases v with
  | none => rfl
  | some s =>
    simp only [Option.getD] at h
    simp [jsOrString, h]

theorem jsOrString_of_truthy (v : Option String) (d : String) (h : v.getD "" ≠ "") :
    jsOrString v d = v.getD "" := by
  cases v with
  | none => exact absurd rfl h
  | some s =>
    simp only [Option.getD] at h ⊢
    simp [jsOrString, h]

theorem jsSlice_ne_empty (s : String) (h : s ≠ "") : jsSlice s 60 ≠ "" := by
  intro hcontra
  apply h
  have hdata : s.data.take 60 = [] := by
    have := congrArg String.data hcontra
    simpa [jsSlice] using this
  rcases List.take_eq_nil_iff.mp hdata with h60 | hnil
  · cases h60
  · cases s with
    | mk data => simp_all

/-- Claim C10: `createStoryFromGeneration` always creates the story with a
non-empty title — the trimmed generation title when non-empty, otherwise the
first 60 characters of the premise or the prompt, otherwise the literal
"Untitled Story" — and a failure to persist the generation data does not
change the created story. -/
theorem createStoryFromGeneration_title (g : StoryGeneration) (persistOk : Bool) :
    (createStoryFromGeneration g persistOk).title = claimTitle g ∧
    (createStoryFromGeneration g persistOk).title ≠ "" ∧
    createStoryFromGeneration g true = createStoryFromGeneration g false := by
  have htitle : (createStoryFromGeneration g persistOk).title = fallbackTitle g := by
    cases persistOk <;> rfl
  have hchain : fallbackTitle g = claimTitle g := by
    rw [fallbackTitle, claimTitle, jsOrString_empty_default g.title]
    by_cases ht : jsTrim (g.title.getD "") = ""
    · by_cases hpre : g.premise.getD "" = ""
      · rw [jsOrString_of_falsy g.premise _ hpre]
        by_cases hpr : g.prompt.getD "" = ""
        · rw [jsOrString_of_falsy g.prompt _ hpr]
          simp [ht, hpre, hpr]
          decide
        · rw [jsOrString_of_truthy g.prompt _ hpr]
          simp [ht, hpre, hpr]
      · rw [jsOrString_of_truthy g.premise _ hpre]
        simp [ht, hpre]
    · simp [ht]
  have hne : claimTitle g ≠ "" := by
    rw [claimTitle]
    by_cases ht : jsTrim (g.title.getD "") = ""
    · by_cases hpre : g.premise.getD "" = ""
      · by_cases hpr : g.prompt.getD "" = ""
        · simp [ht, hpre, hpr]
        · simpa [ht, hpre, hpr] using jsSlice_ne_empty _ hpr
      · simpa [ht, hpre] using jsSlice_ne_empty _ hpre
    · simp [ht]
  refine ⟨htitle.trans hchain, ?_, ?_⟩
  · rw [htitle, hchain]
    exact hne
  · rfl

end Tag
